import Mathlib

/-!
Verification of the uptime monitoring bot (`src/uptimemonitoringbot.js`).

This file gives a shallow embedding of the monitoring engine: the HTTP
website check (`checkWebsite`), the TCP port check (`checkTcpPort`), the
UDP port check (`checkUdpPort`), the per-website state map and transition
logic inside `doMonitoringCycle`, the status-message push, and the
scheduling of cycles via `setInterval`.

JavaScript idioms are modelled explicitly:
- `x || d` on a possibly-absent number/string is `jsOrNat` / `jsOrStr`
  (absent and the falsy values `0` / `""` fall back to the default);
- `String.prototype.toLowerCase` is `jsToLower` (the configs involved are
  ASCII), `String.prototype.startsWith` is `strStartsWith`;
- a caught exception object is `JsError` with its `code`, `name` and
  `message` fields;
- the network is abstracted as the outcome the runtime reports to the
  code (a response status, an error object, attempt outcomes, UDP events):
  every classification the source performs on that outcome is embedded.
-/

/-- The health states a website check can produce
(`"ok" | "tls_error" | "down"`, source line 42 and the returns of
`checkWebsite`). -/
inductive WState where
  | ok
  | tls_error
  | down
deriving DecidableEq, Repr

/-- Result of one website check: `{ text, state }` (source line 115). -/
structure ProbeResult where
  text : String
  state : WState
deriving DecidableEq, Repr

/-- JavaScript `v || d` for an optional number field: `undefined` and the
falsy number `0` fall back to the default. -/
def jsOrNat (v : Option Nat) (d : Nat) : Nat :=
  match v with
  | none => d
  | some n => if n = 0 then d else n

/-- JavaScript `v || d` for an optional string field: `undefined` and the
falsy empty string fall back to the default. -/
def jsOrStr (v : Option String) (d : String) : String :=
  match v with
  | none => d
  | some s => if s = "" then d else s

/-- JavaScript `s.toLowerCase()` on the ASCII strings the config uses. -/
def jsToLower (s : String) : String :=
  ⟨s.data.map Char.toLower⟩

/-- JavaScript `s.startsWith(p)`. -/
def strStartsWith (s p : String) : Bool :=
  p.data.isPrefixOf s.data

/-- One entry of `config.websites[]` (fields read by the source). -/
structure WebsiteConfig where
  name : Option String
  url : String
  verifyTls : Option Bool
  timeoutMs : Option Nat
  id : Option String
deriving DecidableEq, Repr

/-- One entry of `config.ports[]` (fields read by the source). -/
structure PortConfig where
  name : Option String
  host : String
  port : Nat
  protocol : Option String
  timeoutMs : Option Nat
deriving DecidableEq, Repr

/-- The error object a failed `fetch` rejects with: the fields
`checkWebsite`'s catch block inspects. A field the runtime did not set is
`none` / `""`. -/
structure JsError where
  code : Option String
  errName : String
  message : String
deriving DecidableEq, Repr

/-- What the `fetch` call did: delivered a response with a status code, or
rejected with an error object. -/
inductive FetchOutcome where
  | response (status : Nat)
  | failure (e : JsError)
deriving DecidableEq, Repr

/-- `timeoutMs = cfg.timeoutMs || 5000` (source line 121). -/
def websiteTimeoutMs (cfg : WebsiteConfig) : Nat :=
  jsOrNat cfg.timeoutMs 5000

/-- The guard of `checkWebsite`'s first catch branch (source lines 170–175):
`err.code && (err.code.startsWith("CERT_") ||
err.code === "UNABLE_TO_VERIFY_LEAF_SIGNATURE" ||
err.code === "DEPTH_ZERO_SELF_SIGNED_CERT")`. -/
def isTlsErrCode (code : Option String) : Bool :=
  match code with
  | some c => (!(c == "")) && (strStartsWith c "CERT_"
      || c == "UNABLE_TO_VERIFY_LEAF_SIGNATURE"
      || c == "DEPTH_ZERO_SELF_SIGNED_CERT")
  | none => false

/-- `const name = cfg.name || "Unbenannt"` (source line 118). -/
def websiteName (cfg : WebsiteConfig) : String :=
  jsOrStr cfg.name "Unbenannt"

/-- Message for a 2xx/3xx response over plain `http://` (source line 144). -/
def websiteInsecureOkText (cfg : WebsiteConfig) (status : Nat) : String :=
  "⚠️ **" ++ websiteName cfg ++ "** (" ++ cfg.url ++ ") – HTTP "
    ++ toString status ++ " (ohne TLS, evtl. unsicher)"

/-- Message for a non-2xx/3xx response over plain `http://` (source line 149). -/
def websiteInsecureBadText (cfg : WebsiteConfig) (status : Nat) : String :=
  "❌ **" ++ websiteName cfg ++ "** (" ++ cfg.url ++ ") – HTTP "
    ++ toString status ++ " (ohne TLS)"

/-- Message for a 2xx/3xx response over TLS (source line 157). -/
def websiteOkText (cfg : WebsiteConfig) (status : Nat) : String :=
  "✅ **" ++ websiteName cfg ++ "** (" ++ cfg.url ++ ") – HTTP " ++ toString status

/-- Message for a non-2xx/3xx response over TLS (source line 162). -/
def websiteBadText (cfg : WebsiteConfig) (status : Nat) : String :=
  "❌ **" ++ websiteName cfg ++ "** (" ++ cfg.url ++ ") – HTTP " ++ toString status

/-- Message of the TLS/certificate branch (source line 177). -/
def websiteTlsErrorText (cfg : WebsiteConfig) (code : Option String) : String :=
  "🔒❌ **" ++ websiteName cfg ++ "** (" ++ cfg.url
    ++ ") – TLS/Zertifikatfehler (Website nicht sicher?) – " ++ code.getD ""

/-- Message of the abort/timeout branch (source line 184); it reports the
elapsed `timeoutMs`. -/
def websiteTimeoutText (cfg : WebsiteConfig) : String :=
  "⏱️ **" ++ websiteName cfg ++ "** (" ++ cfg.url ++ ") – Timeout nach "
    ++ toString (websiteTimeoutMs cfg) ++ "ms"

/-- Message of the final catch-all branch (source line 190):
`err.name || "Error"` plus `err.message`. -/
def websiteGenericErrorText (cfg : WebsiteConfig) (e : JsError) : String :=
  "❌ **" ++ websiteName cfg ++ "** (" ++ cfg.url ++ ") – Fehler: "
    ++ jsOrStr (some e.errName) "Error" ++ ": " ++ e.message

/-- `checkWebsite` (source lines 117–194): classification of the fetch
outcome into a `ProbeResult`. The branches appear in source order: for a
response, the plain-`http://` test (source line 141) precedes the status
test; for a failure, the TLS-code test (lines 170–175) precedes the
`AbortError` test (line 182), which precedes the catch-all (line 189);
every outcome yields a `ProbeResult` (nothing is rethrown). -/
def checkWebsite (cfg : WebsiteConfig) (outcome : FetchOutcome) : ProbeResult :=
  match outcome with
  | .response status =>
    if strStartsWith (jsToLower cfg.url) "http://" then
      if 200 ≤ status ∧ status < 400 then
        { text := websiteInsecureOkText cfg status, state := .down }
      else
        { text := websiteInsecureBadText cfg status, state := .down }
    else
      if 200 ≤ status ∧ status < 400 then
        { text := websiteOkText cfg status, state := .ok }
      else
        { text := websiteBadText cfg status, state := .down }
  | .failure e =>
    if isTlsErrCode e.code then
      { text := websiteTlsErrorText cfg e.code, state := .tls_error }
    else if e.errName = "AbortError" then
      { text := websiteTimeoutText cfg, state := .down }
    else
      { text := websiteGenericErrorText cfg e, state := .down }

/-- Modelled from the spec: "Any TLS/certificate-validation failure
(including self-signed, unverifiable chain, or depth-zero self-signed)".
The error codes Node's TLS stack reports for a failed certificate
validation (the OpenSSL verification failures plus the hostname check),
which is the set of errors the spec's sentence quantifies over. -/
def isCertValidationFailureSpec (code : Option String) : Bool :=
  match code with
  | none => false
  | some c =>
    c ∈ ["UNABLE_TO_GET_ISSUER_CERT", "UNABLE_TO_GET_ISSUER_CERT_LOCALLY",
      "UNABLE_TO_VERIFY_LEAF_SIGNATURE", "SELF_SIGNED_CERT_IN_CHAIN",
      "DEPTH_ZERO_SELF_SIGNED_CERT", "CERT_HAS_EXPIRED", "CERT_NOT_YET_VALID",
      "CERT_SIGNATURE_FAILURE", "CERT_REVOKED", "CERT_UNTRUSTED",
      "CERT_REJECTED", "ERR_TLS_CERT_ALTNAME_INVALID", "HOSTNAME_MISMATCH"]

example :
    (checkWebsite ⟨some "A", "http://x.de", none, none, none⟩ (.response 200)).state
      = .down := by decide

example :
    (checkWebsite ⟨some "A", "https://x.de", none, none, none⟩ (.response 200)).state
      = .ok := by decide

example :
    (checkWebsite ⟨some "A", "https://x.de", none, none, none⟩
      (.failure ⟨some "DEPTH_ZERO_SELF_SIGNED_CERT", "FetchError", "m"⟩)).state
      = .tls_error := by decide

example :
    (checkWebsite ⟨some "A", "https://x.de", none, none, none⟩
      (.failure ⟨some "SELF_SIGNED_CERT_IN_CHAIN", "FetchError", "m"⟩)).state
      = .down := by decide

example :
    (checkWebsite ⟨some "A", "https://x.de", none, some 0, none⟩
      (.failure ⟨none, "AbortError", "m"⟩)).text
      = "⏱️ **A** (https://x.de) – Timeout nach 5000ms" := by decide

/-! ## TCP check (`checkTcpPort`, source lines 198–253) -/

/-- What one TCP connection attempt does: the first of the three socket
events `connect` / `error` / `timeout` that fires. -/
inductive TcpAttemptOutcome where
  | connected
  | connError (code : String)
  | timedOut
deriving DecidableEq, Repr

/-- `timeoutMs = cfg.timeoutMs || 3000` (source line 202). -/
def tcpTimeoutMs (cfg : PortConfig) : Nat :=
  jsOrNat cfg.timeoutMs 3000

/-- Message of the `onError` handler (source lines 217–222). -/
def tcpErrorMsg (cfg : PortConfig) (code : String) : String :=
  "❌ **" ++ jsOrStr cfg.name "Unbenannt" ++ "** TCP " ++ cfg.host ++ ":"
    ++ toString cfg.port ++ " – nicht erreichbar (" ++ code ++ ")"

/-- Message of the `onConnect` handler (source lines 224–227). -/
def tcpOkMsg (cfg : PortConfig) : String :=
  "✅ **" ++ jsOrStr cfg.name "Unbenannt" ++ "** TCP " ++ cfg.host ++ ":"
    ++ toString cfg.port ++ " – erreichbar"

/-- Message of the second `onTimeout` (source line 240); both attempts run
with the same `timeoutMs` budget (source line 243 is executed by each
`attempt`). -/
def tcpTimeoutMsg (cfg : PortConfig) : String :=
  "⏱️ **" ++ jsOrStr cfg.name "Unbenannt" ++ "** TCP " ++ cfg.host ++ ":"
    ++ toString cfg.port ++ " – Timeout nach " ++ toString (tcpTimeoutMs cfg)
    ++ "ms (nach Retry)"

/-- One `attempt(tryNumber)` of `checkTcpPort` (source lines 206–249):
`error` resolves the unreachable message, `connect` resolves the reachable
message, and `timeout` starts `attempt(2)` when `tryNumber === 1` and
otherwise resolves the timeout-after-retry message. `o1` and `o2` are the
outcomes of the first and (if reached) second attempt. The second
component counts the attempts actually made. -/
def checkTcpPort (cfg : PortConfig) (o1 o2 : TcpAttemptOutcome) : String × Nat :=
  match o1 with
  | .connError code => (tcpErrorMsg cfg code, 1)
  | .connected => (tcpOkMsg cfg, 1)
  | .timedOut =>
    match o2 with
    | .connError code => (tcpErrorMsg cfg code, 2)
    | .connected => (tcpOkMsg cfg, 2)
    | .timedOut => (tcpTimeoutMsg cfg, 2)

/-! ## UDP check (`checkUdpPort`, source lines 257–293) -/

/-- The completion events that can call `done` in `checkUdpPort`: a socket
`error` event, a synchronous error in the `send` callback, or the
`setTimeout` firing `timeoutMs` after a successful send. -/
inductive UdpEvent where
  | socketError (code : String)
  | sendError (code : String)
  | sentNoReply
deriving DecidableEq, Repr

/-- `timeoutMs = cfg.timeoutMs || 3000` (source line 261). -/
def udpTimeoutMs (cfg : PortConfig) : Nat :=
  jsOrNat cfg.timeoutMs 3000

/-- The message each `done(...)` call site passes (source lines 276–291). -/
def udpEventMsg (cfg : PortConfig) : UdpEvent → String
  | .socketError code =>
    "❌ **" ++ jsOrStr cfg.name "Unbenannt" ++ "** UDP " ++ cfg.host ++ ":"
      ++ toString cfg.port ++ " – Fehler: " ++ code
  | .sendError code =>
    "❌ **" ++ jsOrStr cfg.name "Unbenannt" ++ "** UDP " ++ cfg.host ++ ":"
      ++ toString cfg.port ++ " – Fehler beim Senden: " ++ code
  | .sentNoReply =>
    "ℹ️ **" ++ jsOrStr cfg.name "Unbenannt" ++ "** UDP " ++ cfg.host ++ ":"
      ++ toString cfg.port
      ++ " – Paket gesendet, keine Antwort (UDP schwer zuverlässig zu prüfen)"

/-- The `done` guard (source lines 267–274): a later call finds
`finished === true` and changes nothing. -/
def udpDone (st : Option String) (msg : String) : Option String :=
  match st with
  | some m => some m
  | none => some msg

/-- `checkUdpPort` resolution: the completion events in the order they
fire, folded through the `done` guard. -/
def checkUdpPort (cfg : PortConfig) (events : List UdpEvent) : Option String :=
  events.foldl (fun st e => udpDone st (udpEventMsg cfg e)) none

/-! ## Website state map and transition logic
(`lastWebsiteStates`, source lines 43 and 342–355) -/

/-- `getWebsiteKey` (source lines 47–50): `cfg.id` when set, else the
template string joining the index and the URL with a colon. -/
def getWebsiteKey (cfg : WebsiteConfig) (index : Nat) : String :=
  jsOrStr cfg.id (toString index ++ ":" ++ cfg.url)

/-- `lastWebsiteStates[key] || "ok"` (source line 343): the stored state,
or `ok` for a key never observed. The map stores only the three non-empty
state strings, so JavaScript truthiness coincides with presence. -/
def getPrevious (states : String → Option WState) (key : String) : WState :=
  (states key).getD .ok

/-- The two notifications the website loop can send for one result. -/
inductive AlertKind where
  | problem
  | recovery
deriving DecidableEq, Repr

/-- The per-website body of the monitoring loop (source lines 342–355):
read the previous state, send a problem alert when
`result.state !== "ok" && result.state !== prevState`, send a recovery
alert when `result.state === "ok" && prevState !== "ok"`, then store
`result.state` under the key. Returns the updated map and the alerts sent,
in order. -/
def websiteStep (states : String → Option WState) (key : String)
    (result : ProbeResult) : (String → Option WState) × List AlertKind :=
  let prevState := getPrevious states key
  let alerts :=
    (if result.state ≠ .ok ∧ result.state ≠ prevState then [AlertKind.problem] else [])
      ++ (if result.state = .ok ∧ prevState ≠ .ok then [AlertKind.recovery] else [])
  (fun k => if k = key then some result.state else states k, alerts)

/-- The state map at process start: empty (source line 43). -/
def initialStates : String → Option WState := fun _ => none

/-! ## Port dispatch in the monitoring cycle (source lines 363–374) -/

/-- What the cycle does for one `config.ports[]` entry. -/
inductive PortAction where
  | runTcp
  | runUdp
  | unknownLine (line : String)
deriving DecidableEq, Repr

/-- `const proto = (cfg.protocol || "tcp").toLowerCase()` (source line 364). -/
def portProto (cfg : PortConfig) : String :=
  jsToLower (jsOrStr cfg.protocol "tcp")

/-- The protocol dispatch (source lines 364–372): `tcp` runs the TCP
check, `udp` runs the UDP check, anything else contributes only the
unknown-protocol report line. -/
def dispatchPort (cfg : PortConfig) : PortAction :=
  let proto := portProto cfg
  if proto = "tcp" then .runTcp
  else if proto = "udp" then .runUdp
  else .unknownLine ("❓ **" ++ jsOrStr cfg.name "Unbenannt"
    ++ "** – unbekanntes Protokoll: " ++ proto)

/-! ## Status-message push (source lines 383–397 and 405–415) -/

/-- The status-message push at the end of `doMonitoringCycle` (source
lines 383–397). `statusMessage` is the current handle (`none` when the
variable is still `null`), `editOk` is whether `statusMessage.edit`
succeeds, `fresh` is the handle a new `ownerUser.send` would return.
Returns the handle after the push, whether a new message was sent, and
whether an edit succeeded. -/
def pushStatusReport (statusMessage : Option Nat) (editOk : Bool)
    (fresh : Nat) : Option Nat × Bool × Bool :=
  match statusMessage with
  | none => (some fresh, true, false)
  | some h => if editOk then (some h, false, true) else (some fresh, true, false)

/-- The `ready` handler before the first cycle (source lines 405–418):
when the greeting DM succeeds, `statusMessage` is set to it; when the
`try` block throws, the error is logged and `statusMessage` stays `null`. -/
def readyStatusMessage (greetOk : Bool) (greetHandle : Nat) : Option Nat :=
  if greetOk then some greetHandle else none

/-! ## Cycle scheduling (source lines 420–424) -/

/-- Start time of cycle `n` under the source's scheduling: cycle `0` is
`await doMonitoringCycle()` started at time `t0`; after it finishes (at
`t0 + dur 0`) the source calls `setInterval(doMonitoringCycle, I)`, whose
timer fires at fixed ticks `I, 2·I, ...` after that call, independent of
how long each invocation runs. -/
def cycleStart (t0 I : Nat) (dur : Nat → Nat) : Nat → Nat
  | 0 => t0
  | n + 1 => (t0 + dur 0) + (n + 1) * I

/-- End time of cycle `n`: its start plus its duration. -/
def cycleEnd (t0 I : Nat) (dur : Nat → Nat) (n : Nat) : Nat :=
  cycleStart t0 I dur n + dur n

/-- Modelled from the spec: the schedule the spec describes, in which "the
interval is measured from the end of one cycle's scheduling call to the
start of the next, so slow cycles push out the next start time rather
than overlapping". -/
def specCycleStart (t0 I : Nat) (dur : Nat → Nat) : Nat → Nat
  | 0 => t0
  | n + 1 => (specCycleStart t0 I dur n + dur n) + I

example : cycleStart 0 10 (fun _ => 15) 2 = 35 := by decide
example : cycleEnd 0 10 (fun _ => 15) 1 = 40 := by decide
example : specCycleStart 0 10 (fun _ => 15) 2 = 50 := by decide

/-! ## Helper lemmas -/

/-- Two strings with different first characters differ. -/
theorem ne_of_head_ne (s t : String) (h : s.data.head? ≠ t.data.head?) : s ≠ t :=
  fun he => h (congrArg (fun x : String => x.data.head?) he)

/-- Once `done` has resolved, later events change nothing. -/
theorem udpDone_foldl_some (cfg : PortConfig) (m : String) (l : List UdpEvent) :
    l.foldl (fun st e => udpDone st (udpEventMsg cfg e)) (some m) = some m := by
  induction l with
  | nil => rfl
  | cons e l ih => simpa [udpDone] using ih

/-! ## Claim theorems -/

/-- C1: for every website checked in a cycle, a problem notification is
invoked iff the new state is not `ok` and differs from the previous state
looked up for the website's key, a recovery notification is invoked iff
the new state is `ok` and the previous state was not `ok`, and at most one
notification (never both) is produced per website per cycle. -/
theorem c1_transition_notifications (states : String → Option WState)
    (key : String) (result : ProbeResult) :
    (AlertKind.problem ∈ (websiteStep states key result).2
        ↔ (result.state ≠ .ok ∧ result.state ≠ getPrevious states key))
    ∧ (AlertKind.recovery ∈ (websiteStep states key result).2
        ↔ (result.state = .ok ∧ getPrevious states key ≠ .ok))
    ∧ (websiteStep states key result).2.length ≤ 1 := by
  cases hs : result.state <;> cases hp : getPrevious states key <;>
    simp [websiteStep, hs, hp]

/-- C5: the TCP check retries exactly once and only on a timeout: a
timeout then a successful connect resolves the reachable message after 2
attempts; a connection error on attempt 1 resolves the unreachable
message immediately (1 attempt, no retry); a connection error on attempt 2
also resolves it with no further attempt; a timeout on both attempts
resolves the timeout message, which names the shared `timeoutMs` budget
and notes the retry (`nach Retry`); a successful connect on attempt 1
resolves the reachable message after 1 attempt. -/
theorem c5_tcp_retry_policy (cfg : PortConfig) (o2 : TcpAttemptOutcome)
    (code : String) :
    checkTcpPort cfg .timedOut .connected = (tcpOkMsg cfg, 2)
    ∧ checkTcpPort cfg .timedOut .timedOut = (tcpTimeoutMsg cfg, 2)
    ∧ checkTcpPort cfg (.connError code) o2 = (tcpErrorMsg cfg code, 1)
    ∧ checkTcpPort cfg .timedOut (.connError code) = (tcpErrorMsg cfg code, 2)
    ∧ checkTcpPort cfg .connected o2 = (tcpOkMsg cfg, 1)
    ∧ tcpTimeoutMsg cfg
        = "⏱️ **" ++ jsOrStr cfg.name "Unbenannt" ++ "** TCP " ++ cfg.host
          ++ ":" ++ toString cfg.port ++ " – Timeout nach "
          ++ toString (tcpTimeoutMs cfg) ++ "ms (nach Retry)" :=
  ⟨rfl, rfl, rfl, rfl, rfl, rfl⟩

/-- C6: a key never observed reads back as previous state `ok`, so a
first-ever non-`ok` observation (in particular `tls_error`) for an unseen
key produces exactly one problem notification. -/
theorem c6_first_seen_defaults_ok (states : String → Option WState)
    (key txt : String) (s : WState) (hunseen : states key = none) :
    getPrevious states key = .ok
    ∧ (s ≠ .ok → (websiteStep states key ⟨txt, s⟩).2 = [AlertKind.problem]) := by
  constructor
  · simp [getPrevious, hunseen]
  · intro hs
    cases s <;> simp [websiteStep, getPrevious, hunseen] at hs ⊢

/-- Witness for C6: the fresh `lastWebsiteStates` map at startup, a key
`"0:https://x.de"`, and a first observation of `tls_error`. -/
theorem c6_first_seen_defaults_ok_witness :
    getPrevious initialStates "0:https://x.de" = .ok
    ∧ (websiteStep initialStates "0:https://x.de" ⟨"t", .tls_error⟩).2
        = [AlertKind.problem] := by
  have h := c6_first_seen_defaults_ok initialStates "0:https://x.de" "t"
    .tls_error rfl
  exact ⟨h.1, h.2 (by decide)⟩

/-- C9: an absent or `0` `timeoutMs` falls back to the built-in defaults
(5000 ms for the HTTP check, 3000 ms for the TCP and UDP checks); a
configured `0` is never used as the effective timeout. -/
theorem c9_timeout_defaults (w : WebsiteConfig) (p : PortConfig) :
    websiteTimeoutMs { w with timeoutMs := none } = 5000
    ∧ websiteTimeoutMs { w with timeoutMs := some 0 } = 5000
    ∧ tcpTimeoutMs { p with timeoutMs := none } = 3000
    ∧ tcpTimeoutMs { p with timeoutMs := some 0 } = 3000
    ∧ udpTimeoutMs { p with timeoutMs := none } = 3000
    ∧ udpTimeoutMs { p with timeoutMs := some 0 } = 3000
    ∧ websiteTimeoutMs { w with timeoutMs := some 0 } ≠ 0
    ∧ tcpTimeoutMs { p with timeoutMs := some 0 } ≠ 0
    ∧ udpTimeoutMs { p with timeoutMs := some 0 } ≠ 0 := by
  refine ⟨rfl, rfl, rfl, rfl, rfl, rfl, ?_, ?_, ?_⟩
  · have h : websiteTimeoutMs { w with timeoutMs := some 0 } = 5000 := rfl
    omega
  · have h : tcpTimeoutMs { p with timeoutMs := some 0 } = 3000 := rfl
    omega
  · have h : udpTimeoutMs { p with timeoutMs := some 0 } = 3000 := rfl
    omega

/-- C7: the UDP check resolves exactly once — whichever completion event
fires first determines the result and later events change nothing; a
successful send with no reply within the timeout resolves the
informational message (which differs from both hard-failure messages and
so never reads as a failure line); only a send-callback error or a socket
error resolves a failure message. -/
theorem c7_udp_resolution (cfg : PortConfig) (rest : List UdpEvent)
    (code : String) (e : UdpEvent) :
    checkUdpPort cfg (e :: rest) = some (udpEventMsg cfg e)
    ∧ checkUdpPort cfg (.sentNoReply :: rest)
        = some (udpEventMsg cfg .sentNoReply)
    ∧ checkUdpPort cfg (.sendError code :: rest)
        = some (udpEventMsg cfg (.sendError code))
    ∧ checkUdpPort cfg (.socketError code :: rest)
        = some (udpEventMsg cfg (.socketError code))
    ∧ udpEventMsg cfg .sentNoReply ≠ udpEventMsg cfg (.sendError code)
    ∧ udpEventMsg cfg .sentNoReply ≠ udpEventMsg cfg (.socketError code) := by
  have hfirst : ∀ ev : UdpEvent,
      checkUdpPort cfg (ev :: rest) = some (udpEventMsg cfg ev) := by
    intro ev
    show List.foldl _ none (ev :: rest) = _
    rw [List.foldl_cons]
    exact udpDone_foldl_some cfg _ rest
  have hi : (udpEventMsg cfg UdpEvent.sentNoReply).data.head? = some 'ℹ' := rfl
  have hs : (udpEventMsg cfg (UdpEvent.sendError code)).data.head? = some '❌' := rfl
  have he : (udpEventMsg cfg (UdpEvent.socketError code)).data.head? = some '❌' := rfl
  exact ⟨hfirst e, hfirst _, hfirst _, hfirst _,
    ne_of_head_ne _ _ (by rw [hi, hs]; decide),
    ne_of_head_ne _ _ (by rw [hi, he]; decide)⟩

/-- C10: a missing `protocol` dispatches to the TCP check; the value is
lowercased before comparison, so `"TCP"` and `"Udp"` are accepted; a value
whose lowercase form is neither `tcp` nor `udp` contributes only the
unknown-protocol report line (no probe is run for that entry). -/
theorem c10_protocol_dispatch (p : PortConfig) :
    dispatchPort { p with protocol := none } = .runTcp
    ∧ dispatchPort { p with protocol := some "TCP" } = .runTcp
    ∧ dispatchPort { p with protocol := some "Udp" } = .runUdp
    ∧ ∀ proto : String,
        portProto { p with protocol := some proto } ≠ "tcp" →
        portProto { p with protocol := some proto } ≠ "udp" →
        dispatchPort { p with protocol := some proto }
          = .unknownLine ("❓ **" ++ jsOrStr p.name "Unbenannt"
              ++ "** – unbekanntes Protokoll: "
              ++ portProto { p with protocol := some proto }) := by
  refine ⟨rfl, rfl, rfl, ?_⟩
  intro proto h1 h2
  simp [dispatchPort, h1, h2]

/-- Witness for C10: a concrete entry with `protocol: "foo"` yields only
the unknown-protocol line. -/
theorem c10_protocol_dispatch_witness :
    dispatchPort ⟨some "B", "x", 22, some "foo", none⟩
      = .unknownLine "❓ **B** – unbekanntes Protokoll: foo" := by
  have h := (c10_protocol_dispatch ⟨some "B", "x", 22, none, none⟩).2.2.2
    "foo" (by decide) (by decide)
  exact h.trans (by decide)

/-- C4: a response received for a URL whose lowercased form starts with
`http://` always classifies as `down`, whatever the status code, and the
message for a 2xx/3xx status differs from the message for any other
status. -/
theorem c4_plain_http_always_down (cfg : WebsiteConfig) (status s1 s2 : Nat)
    (hhttp : strStartsWith (jsToLower cfg.url) "http://" = true) :
    (checkWebsite cfg (.response status)).state = .down
    ∧ ((200 ≤ s1 ∧ s1 < 400) → ¬(200 ≤ s2 ∧ s2 < 400) →
        (checkWebsite cfg (.response s1)).text
          ≠ (checkWebsite cfg (.response s2)).text) := by
  constructor
  · simp only [checkWebsite, hhttp, if_true]
    split <;> rfl
  · intro h1 h2
    simp only [checkWebsite, hhttp, if_true, if_pos h1, if_neg h2]
    have ha : (websiteInsecureOkText cfg s1).data.head? = some '⚠' := rfl
    have hb : (websiteInsecureBadText cfg s2).data.head? = some '❌' := rfl
    exact ne_of_head_ne _ _ (by rw [ha, hb]; decide)

/-- Witness for C4: `http://x.de` with status 200 is `down`, and its
message differs from the one for status 500. -/
theorem c4_plain_http_always_down_witness :
    (checkWebsite ⟨some "A", "http://x.de", none, none, none⟩
        (.response 200)).state = .down
    ∧ (checkWebsite ⟨some "A", "http://x.de", none, none, none⟩
          (.response 200)).text
        ≠ (checkWebsite ⟨some "A", "http://x.de", none, none, none⟩
          (.response 500)).text := by
  have h := c4_plain_http_always_down ⟨some "A", "http://x.de", none, none, none⟩
    200 200 500 (by decide)
  exact ⟨h.1, h.2 (by decide) (by decide)⟩

/-- Counterexample to C8: when the startup DM succeeds, the `ready`
handler already sets the status-message handle (to the greeting message,
here handle 7) before any cycle runs, and the first cycle's push then
edits that message and sends nothing new — so the handle is not created
on the first cycle. -/
theorem c8_created_before_first_cycle_counterexample :
    readyStatusMessage true 7 = some 7
    ∧ pushStatusReport (readyStatusMessage true 7) true 8 = (some 7, false, true) :=
  ⟨rfl, rfl⟩

/-- C8 (amended): the handle is created at startup by the greeting DM
when that send succeeds; a cycle that finds no handle (the startup send
failed) sends a new message and adopts it; otherwise the cycle edits the
existing message, and if the edit fails a new message is sent and adopted
as the handle for subsequent cycles. -/
theorem c8_status_handle_protocol (h fresh greetHandle : Nat) :
    readyStatusMessage true greetHandle = some greetHandle
    ∧ readyStatusMessage false greetHandle = none
    ∧ (∀ editOk, pushStatusReport none editOk fresh = (some fresh, true, false))
    ∧ pushStatusReport (some h) true fresh = (some h, false, true)
    ∧ pushStatusReport (some h) false fresh = (some fresh, true, false) :=
  ⟨rfl, rfl, fun _ => rfl, rfl, rfl⟩

/-- Counterexample to C2: with the first cycle ending at time 15 and an
interval of 10, `setInterval` starts cycle 2 at tick 35 although cycle 1
(started at tick 25, duration 15) is still running until 40 — the cycles
overlap and the next start is not one interval after the previous end
(the spec's end-to-start schedule would start cycle 2 at 50). -/
theorem c2_fixed_tick_overlap_counterexample :
    cycleStart 0 10 (fun _ => 15) 2 < cycleEnd 0 10 (fun _ => 15) 1
    ∧ cycleStart 0 10 (fun _ => 15) 2 ≠ cycleEnd 0 10 (fun _ => 15) 1 + 10
    ∧ specCycleStart 0 10 (fun _ => 15) 2 ≠ cycleStart 0 10 (fun _ => 15) 2 := by
  refine ⟨by decide, by decide, by decide⟩

/-- C2 (amended): the first cycle runs to completion before `setInterval`
is called, so cycle 1 starts one interval after cycle 0 ends; from then
on cycles start at fixed ticks one interval apart, independent of how
long each cycle runs; consecutive cycles do not overlap only when every
scheduled cycle's duration stays within the interval — a slower cycle is
overlapped by the next tick rather than pushing it out. -/
theorem c2_setInterval_schedule (t0 I : Nat) (dur : Nat → Nat) :
    cycleStart t0 I dur 1 = cycleEnd t0 I dur 0 + I
    ∧ (∀ n, cycleStart t0 I dur (n + 2) = cycleStart t0 I dur (n + 1) + I)
    ∧ ((∀ n, dur (n + 1) ≤ I) →
        ∀ n, cycleEnd t0 I dur (n + 1) ≤ cycleStart t0 I dur (n + 2))
    ∧ cycleEnd t0 I dur 0 ≤ cycleStart t0 I dur 1 := by
  refine ⟨?_, ?_, ?_, ?_⟩
  · simp [cycleStart, cycleEnd]
  · intro n
    have hmul : (n + 2) * I = (n + 1) * I + I := by ring
    simp [cycleStart, hmul]
    ring
  · intro h n
    have hd := h n
    have hmul : (n + 2) * I = (n + 1) * I + I := by ring
    simp only [cycleEnd, cycleStart, hmul]
    omega
  · simp [cycleStart, cycleEnd]

/-- Witness for C2 (amended): interval 10 with all cycles of duration 5 —
cycle 1 ends at 30, before cycle 2 starts at 35. -/
theorem c2_setInterval_schedule_witness :
    cycleEnd 0 10 (fun _ => 5) 1 ≤ cycleStart 0 10 (fun _ => 5) 2 :=
  (c2_setInterval_schedule 0 10 (fun _ => 5)).2.2.1
    (fun _ => by show (5 : Nat) ≤ 10; decide) 0

/-- Counterexample to C3: `SELF_SIGNED_CERT_IN_CHAIN` — the code Node
reports when certificate validation fails on a self-signed certificate in
the chain, squarely a TLS/certificate-validation failure — does not start
with `CERT_` and is not one of the two codes the catch block lists, so
the probe classifies it `down`, not `tls_error`. -/
theorem c3_cert_failure_counterexample :
    isCertValidationFailureSpec (some "SELF_SIGNED_CERT_IN_CHAIN") = true
    ∧ (checkWebsite ⟨some "A", "https://x.de", none, none, none⟩
        (.failure ⟨some "SELF_SIGNED_CERT_IN_CHAIN", "FetchError",
          "self signed certificate in certificate chain"⟩)).state = .down
    ∧ WState.down ≠ WState.tls_error := by
  refine ⟨by decide, by decide, by decide⟩

/-- C3 (amended): a failure whose `code` starts with `CERT_` or equals
`UNABLE_TO_VERIFY_LEAF_SIGNATURE` or `DEPTH_ZERO_SELF_SIGNED_CERT` yields
`tls_error` with the code in the message; otherwise an `AbortError`
yields `down` with the elapsed timeout in the message; any other failure
(including certificate-validation failures with other codes) yields
`down` with the failure name and description; the rules apply in that
order and every failure maps to a `ProbeResult` (nothing is rethrown). -/
theorem c3_error_classification (cfg : WebsiteConfig) (e : JsError) :
    (isTlsErrCode e.code = true →
      checkWebsite cfg (.failure e)
        = ⟨websiteTlsErrorText cfg e.code, .tls_error⟩)
    ∧ (isTlsErrCode e.code = false → e.errName = "AbortError" →
      checkWebsite cfg (.failure e) = ⟨websiteTimeoutText cfg, .down⟩)
    ∧ (isTlsErrCode e.code = false → e.errName ≠ "AbortError" →
      checkWebsite cfg (.failure e) = ⟨websiteGenericErrorText cfg e, .down⟩) := by
  refine ⟨?_, ?_, ?_⟩
  · intro h
    simp [checkWebsite, h]
  · intro h hn
    simp [checkWebsite, h, hn]
  · intro h hn
    simp [checkWebsite, h, hn]

/-- Witness for C3 (amended): an expired certificate classifies
`tls_error`, an abort classifies `down` with the timeout message, a DNS
failure classifies `down` with the generic message. -/
theorem c3_error_classification_witness :
    checkWebsite ⟨some "A", "https://x.de", none, none, none⟩
        (.failure ⟨some "CERT_HAS_EXPIRED", "FetchError", "expired"⟩)
      = ⟨websiteTlsErrorText ⟨some "A", "https://x.de", none, none, none⟩
          (some "CERT_HAS_EXPIRED"), .tls_error⟩
    ∧ checkWebsite ⟨some "A", "https://x.de", none, none, none⟩
        (.failure ⟨none, "AbortError", "aborted"⟩)
      = ⟨websiteTimeoutText ⟨some "A", "https://x.de", none, none, none⟩, .down⟩
    ∧ checkWebsite ⟨some "A", "https://x.de", none, none, none⟩
        (.failure ⟨some "ENOTFOUND", "FetchError", "getaddrinfo ENOTFOUND"⟩)
      = ⟨websiteGenericErrorText ⟨some "A", "https://x.de", none, none, none⟩
          ⟨some "ENOTFOUND", "FetchError", "getaddrinfo ENOTFOUND"⟩, .down⟩ :=
  ⟨(c3_error_classification ⟨some "A", "https://x.de", none, none, none⟩
      ⟨some "CERT_HAS_EXPIRED", "FetchError", "expired"⟩).1 (by decide),
   (c3_error_classification ⟨some "A", "https://x.de", none, none, none⟩
      ⟨none, "AbortError", "aborted"⟩).2.1 (by decide) (by decide),
   (c3_error_classification ⟨some "A", "https://x.de", none, none, none⟩
      ⟨some "ENOTFOUND", "FetchError", "getaddrinfo ENOTFOUND"⟩).2.2
      (by decide) (by decide)⟩
